import Mathlib

/-!
Shallow embedding of `src/connection.py` of the uPyLoader repository
(the `Connection` base class: paste-mode code injection, the
background auto-reader loop, and the small file-operation helpers),
together with spec-modelled definitions for the concrete transport
operations that the repository declares abstract
(`raise NotImplementedError`) and implements outside the files given
under `src/`.
-/

/-- One transmit event on the transport: either a single control/printable
character (`send_character`) or a text line followed by explicit ending
bytes (`send_line(line_text, ending)`). The ending is kept as a byte list;
`b"\r"` is `[13]`. -/
inductive TxEvent : Type
  | char (c : Nat)
  | line (text : String) (ending : List Nat)
  deriving DecidableEq, Repr

/-- The carriage-return ending `b"\r"` used by `run_file`. -/
def crEnding : List Nat := [13]

/-- `send_character(char)` as a trace of transmit events. -/
def send_character_ev (c : Nat) : List TxEvent := [TxEvent.char c]

/-- `send_line(line_text, ending)` as a trace of transmit events. -/
def send_line_ev (text : String) (ending : List Nat) : List TxEvent :=
  [TxEvent.line text ending]

/-- `send_start_paste`: `self.send_character("\5")` (code point 5 = 0x05). -/
def send_start_paste_ev : List TxEvent := send_character_ev 5

/-- `send_end_paste`: `self.send_character("\4")` (code point 4 = 0x04). -/
def send_end_paste_ev : List TxEvent := send_character_ev 4

/-- `send_kill`: `self.send_character("\3")` (code point 3 = 0x03). -/
def send_kill_ev : List TxEvent := send_character_ev 3

/-- The first code line `run_file` sends:
`"with open(\"{}\") as f:".format(file_name)`. -/
def run_file_open_line (file_name : String) : String :=
  "with open(\"" ++ file_name ++ "\") as f:"

/-- The second code line `run_file` sends (a fixed string in the source). -/
def run_file_exec_line : String := "    exec(f.read(), globals())"

/-- `Connection.run_file(file_name, globals_init="")` as the trace of
transmit events it performs, in source order: `send_start_paste()`;
`send_line(globals_init, b"\r")` when `globals_init` is truthy (non-empty);
the `with open(...)` line; the `exec` line; `send_end_paste()`. -/
def run_file_ev (file_name globals_init : String) : List TxEvent :=
  send_start_paste_ev
    ++ (if globals_init = "" then [] else send_line_ev globals_init crEnding)
    ++ send_line_ev (run_file_open_line file_name) crEnding
    ++ send_line_ev run_file_exec_line crEnding
    ++ send_end_paste_ev

/-- C2: for every `fileName` and `globalsInit`, `run_file` writes exactly,
in order: the start-paste byte 0x05; the `globalsInit` line + `b"\r"` when
`globalsInit` is non-empty; the `with open("<fileName>") as f:` line +
`b"\r"`; the `    exec(f.read(), globals())` line + `b"\r"`; the end-paste
byte 0x04 — and nothing else. In particular `runFile("main.py", "x=1")`
sends exactly that five-element sequence. -/
theorem run_file_sends_exact_paste_sequence :
    (∀ file_name globals_init : String,
      run_file_ev file_name globals_init =
        [TxEvent.char 0x05]
          ++ (if globals_init = "" then []
              else [TxEvent.line globals_init [13]])
          ++ [TxEvent.line ("with open(\"" ++ file_name ++ "\") as f:") [13],
              TxEvent.line "    exec(f.read(), globals())" [13],
              TxEvent.char 0x04]) ∧
    run_file_ev "main.py" "x=1" =
      [TxEvent.char 0x05,
       TxEvent.line "x=1" [13],
       TxEvent.line "with open(\"main.py\") as f:" [13],
       TxEvent.line "    exec(f.read(), globals())" [13],
       TxEvent.char 0x04] := by
  constructor
  · intro file_name globals_init
    by_cases h : globals_init = "" <;>
      simp [run_file_ev, send_start_paste_ev, send_end_paste_ev,
        send_character_ev, send_line_ev, run_file_open_line,
        run_file_exec_line, crEnding, h]
  · rfl

/-! ## Background reader loop (`Connection._reader_thread_routine`) -/

/-- One observable action of a background-reader iteration body:
acquiring the auto-reader lock, the `read_line()` call, releasing the
lock, and the `time.sleep(...)` with its duration in seconds. -/
inductive ReaderEv : Type
  | acquire
  | readLine
  | release
  | sleep (seconds : ℚ)
  deriving DecidableEq, Repr

/-- The body of one iteration of `_reader_thread_routine`'s `while` loop,
as the list of actions it performs, given the current value of
`_auto_read_enabled` and the line `read_line()` would return.  The source:
acquire the lock; `x = ""`; if `_auto_read_enabled` then `x = read_line()`;
release the lock; `time.sleep(0.1 if x == "" else 0)`. -/
def reader_iteration (auto_read : Bool) (line : String) : List ReaderEv :=
  [ReaderEv.acquire]
    ++ (if auto_read then [ReaderEv.readLine] else [])
    ++ [ReaderEv.release]
    ++ [ReaderEv.sleep
          (if (if auto_read then line else "") = "" then 1/10 else 0)]

/-- C5: every reader-loop iteration performs exactly: acquire the guard;
one `read_line` call iff `autoReadEnabled`; release the guard; then a
sleep of `0.1` seconds when no line was obtained (read skipped, or the
read returned the empty string) and `0` seconds when a non-empty line was
read. -/
theorem reader_iteration_exact (auto_read : Bool) (line : String) :
    reader_iteration auto_read line =
      [ReaderEv.acquire]
        ++ (if auto_read then [ReaderEv.readLine] else [])
        ++ [ReaderEv.release,
            ReaderEv.sleep
              (if auto_read ∧ line ≠ "" then 0 else 1/10)] := by
  cases auto_read with
  | false => simp [reader_iteration]
  | true =>
    by_cases h : line = "" <;> simp [reader_iteration, h]

/-- The reader loop at iteration granularity.  `obs` is the successive
values of `_reader_running` observed at the `while` test; the result is
the actions of the iterations actually run.  The loop body runs exactly
when the observed flag is true, and the routine returns at the first
false observation. -/
def reader_loop (auto_read : Bool) (lines : String) :
    List Bool → List ReaderEv
  | [] => []
  | b :: obs =>
      if b then reader_iteration auto_read lines ++ reader_loop auto_read lines obs
      else []

/-- Modelled from the spec: the concrete `disconnect` implementation is
not under `src/` (the base class raises `NotImplementedError`); per the
spec it stops the background reader — clears its running flag and waits
for the reader to observe it — and then releases the transport. -/
inductive DisconnectStep : Type
  | clearRunning
  | waitReaderExit
  | releaseTransport
  deriving DecidableEq, Repr

/-- Modelled from the spec: the sequence of steps `disconnect` performs. -/
def disconnect_steps : List DisconnectStep :=
  [DisconnectStep.clearRunning, DisconnectStep.waitReaderExit,
   DisconnectStep.releaseTransport]

/-- C6: once `readerRunning` is observed false the loop exits at once —
after any prefix of true observations the loop runs exactly those
iterations, performs nothing for observations after the first false, and
in particular makes no further `read_line` attempts; and (spec-modelled)
`disconnect` clears the flag, then waits for the reader to exit, and only
then releases the transport. -/
theorem reader_loop_stops_after_flag_cleared
    (auto_read : Bool) (lines : String) (pre post : List Bool)
    (hpre : ∀ b ∈ pre, b = true) :
    reader_loop auto_read lines (pre ++ false :: post) =
        reader_loop auto_read lines (pre ++ [false]) ∧
    (reader_loop auto_read lines (pre ++ false :: post)).count
        ReaderEv.readLine =
      (if auto_read then pre.length else 0) ∧
    List.indexOf DisconnectStep.clearRunning disconnect_steps <
        List.indexOf DisconnectStep.waitReaderExit disconnect_steps ∧
    List.indexOf DisconnectStep.waitReaderExit disconnect_steps <
        List.indexOf DisconnectStep.releaseTransport disconnect_steps := by
  refine ⟨?_, ?_, by decide, by decide⟩
  · induction pre with
    | nil => simp [reader_loop]
    | cons b rest ih =>
      have hb : b = true := hpre b (List.mem_cons_self ..)
      subst hb
      have := ih (fun c hc => hpre c (List.mem_cons_of_mem _ hc))
      simp [reader_loop, this]
  · induction pre with
    | nil => cases auto_read <;> simp [reader_loop]
    | cons b rest ih =>
      have hb : b = true := hpre b (List.mem_cons_self ..)
      subst hb
      have hcount := ih (fun c hc => hpre c (List.mem_cons_of_mem _ hc))
      have hiter :
          (reader_iteration auto_read lines).count ReaderEv.readLine =
            if auto_read then 1 else 0 := by
        cases auto_read <;>
          by_cases h : lines = "" <;>
            simp [reader_iteration, h, List.count_cons, List.count_append]
      cases auto_read
      · simp [reader_loop, List.count_append, hiter, hcount]
      · simp [reader_loop, List.count_append, hiter, hcount]
        omega

/-- Closed witness for `reader_loop_stops_after_flag_cleared`: with
`autoRead` on, two true observations then false (then a stale true), the
loop runs exactly two iterations and two reads, and `disconnect` orders
its steps as stated. -/
theorem reader_loop_stops_after_flag_cleared_witness :
    reader_loop true "ok" ([true, true] ++ false :: [true]) =
        reader_loop true "ok" ([true, true] ++ [false]) ∧
    (reader_loop true "ok" ([true, true] ++ false :: [true])).count
        ReaderEv.readLine = (if true then ([true, true] : List Bool).length else 0) ∧
    List.indexOf DisconnectStep.clearRunning disconnect_steps <
        List.indexOf DisconnectStep.waitReaderExit disconnect_steps ∧
    List.indexOf DisconnectStep.waitReaderExit disconnect_steps <
        List.indexOf DisconnectStep.releaseTransport disconnect_steps :=
  reader_loop_stops_after_flag_cleared true "ok" [true, true] [true]
    (by decide)

/-! ## Reader-loop failure behaviour (no exception handling in the source) -/

/-- The flags of a `Connection` visible to the reader routine:
`_reader_running` and whether `_auto_reader_lock` is currently held. -/
structure ReaderState : Type where
  running : Bool
  lockHeld : Bool
  deriving DecidableEq, Repr

/-- The transport-level failure a `read_line()` call can raise. -/
inductive TransportFailure : Type
  | transportError
  deriving DecidableEq, Repr

/-- One reader-loop iteration body with a fallible `read_line`, following
the source exactly: `acquire()` (sets the lock held); `x = ""`; if
`_auto_read_enabled` then `x = self.read_line()` — a raise here
propagates immediately, so `release()` is never reached, the flag is not
touched and the lock stays held; otherwise `release()` then the sleep.
On success the result carries the line read and the state; on a raise it
carries the exception and the state at the point of propagation. -/
def reader_body (auto_read : Bool) (read : Except TransportFailure String)
    (s : ReaderState) : Except (TransportFailure × ReaderState) (String × ReaderState) :=
  let s1 : ReaderState := { s with lockHeld := true }
  if auto_read then
    match read with
    | Except.error e => Except.error (e, s1)
    | Except.ok x => Except.ok (x, { s1 with lockHeld := false })
  else
    Except.ok ("", { s1 with lockHeld := false })

/-- C7 is false of the source: when `read_line` raises during an
iteration (auto-read on, reader running), the exception propagates out
of `_reader_thread_routine` with `_reader_running` still `true` and the
auto-reader lock still held — the routine has no handler that clears the
flag, and the `release()` after the read is skipped. -/
theorem reader_read_failure_leaves_flag_and_lock (e : TransportFailure) :
    reader_body true (Except.error e)
        { running := true, lockHeld := false } =
      Except.error (e, { running := true, lockHeld := true }) := by
  rfl

/-! ## `remove_file` and the `send_line` signature (arity model) -/

/-- Failures an operation call can raise in the embedding: the
spec-modelled `NotConnected` check of the concrete transports, the
Python `TypeError` for a call that omits a required argument, and a
transport-level failure. -/
inductive PyFailure : Type
  | notConnected
  | missingArgument
  | transportError
  deriving DecidableEq, Repr

/-- The statement text `remove_file` builds:
`"import os; os.remove(\"{}\")".format(file_name)`, the file name
interpolated verbatim with no escaping. -/
def remove_file_stmt (file_name : String) : String :=
  "import os; os.remove(\"" ++ file_name ++ "\")"

/-- A call to `send_line`.  The source signature is
`def send_line(self, line_text, ending):` — both parameters are required
and neither has a default, so a call site is modelled by the text it
passes plus the ending argument it passes, `none` when the call omits
it.  Python binds arguments before entering the body, so a call with the
ending omitted raises the missing-argument `TypeError` before anything
is written; with both arguments bound, the line and its ending go out
(spec-modelled connectivity check first: the concrete transports are not
under `src/`, and per the spec every operation fails with `NotConnected`
while disconnected). -/
def call_send_line (connected : Bool) (text : String)
    (ending : Option (List Nat)) : Except PyFailure (List TxEvent) :=
  match ending with
  | none => Except.error PyFailure.missingArgument
  | some e =>
      if connected then Except.ok (send_line_ev text e)
      else Except.error PyFailure.notConnected

/-- `Connection.remove_file(file_name)` as written in the source:
`self.send_line("import os; os.remove(\"{}\")".format(file_name))` — the
`ending` argument is omitted. -/
def remove_file_call (connected : Bool) (file_name : String) :
    Except PyFailure (List TxEvent) :=
  call_send_line connected (remove_file_stmt file_name) none

/-- C10: `remove_file` passes `send_line` only the statement text while
the `send_line` signature requires both `line_text` and `ending`; so
every `remove_file` call against an implementation with that signature
fails with a missing-argument error (writing nothing), and no
line-ending byte is ever specified for the removal statement. -/
theorem remove_file_always_missing_argument
    (connected : Bool) (file_name : String) :
    remove_file_call connected file_name =
        Except.error PyFailure.missingArgument ∧
    remove_file_stmt file_name =
        "import os; os.remove(\"" ++ file_name ++ "\")" := by
  exact ⟨rfl, rfl⟩

/-- C9 is false of the source: even on a connected `Connection`,
`removeFile("main.py")` sends nothing at all — the one-argument
`send_line` call raises the missing-argument `TypeError` first — even
though the statement text it builds is exactly the claimed
`import os; os.remove("main.py")` with the name interpolated verbatim. -/
theorem remove_file_sends_nothing :
    remove_file_call true "main.py" =
        Except.error PyFailure.missingArgument ∧
    remove_file_stmt "main.py" = "import os; os.remove(\"main.py\")" := by
  exact ⟨rfl, rfl⟩

/-! ## Operations on a disconnected `Connection` -/

/-- Sequencing of two fallible transmitting steps: the first failure
propagates, otherwise the transmit traces concatenate. -/
def seqTx (a b : Except PyFailure (List TxEvent)) :
    Except PyFailure (List TxEvent) :=
  match a with
  | Except.error e => Except.error e
  | Except.ok t1 =>
      match b with
      | Except.error e => Except.error e
      | Except.ok t2 => Except.ok (t1 ++ t2)

/-- Modelled from the spec: `send_character` in the concrete transports
(not under `src/`) fails with `NotConnected` while disconnected,
otherwise writes the single character. -/
def call_send_character (connected : Bool) (c : Nat) :
    Except PyFailure (List TxEvent) :=
  if connected then Except.ok (send_character_ev c)
  else Except.error PyFailure.notConnected

/-- Modelled from the spec: a non-transmitting primitive operation of the
concrete transports (`read_line`, `read_all`, `list_files`, `write_file`,
`read_file`): fails with `NotConnected` while disconnected, otherwise
succeeds writing whatever trace the concrete operation produces. -/
def call_primitive (connected : Bool) (tx : List TxEvent) :
    Except PyFailure (List TxEvent) :=
  if connected then Except.ok tx
  else Except.error PyFailure.notConnected

/-- `run_file` composed from its source body over the connectivity-checked
primitives: `send_start_paste()`, the optional globals line, the two code
lines, `send_end_paste()`. -/
def run_file_call (connected : Bool) (file_name globals_init : String) :
    Except PyFailure (List TxEvent) :=
  seqTx (call_send_character connected 5)
    (seqTx (if globals_init = "" then Except.ok []
            else call_send_line connected globals_init (some crEnding))
      (seqTx (call_send_line connected (run_file_open_line file_name)
                (some crEnding))
        (seqTx (call_send_line connected run_file_exec_line (some crEnding))
          (call_send_character connected 4))))

/-- C4 is false of the source at `removeFile`: on a disconnected
`Connection`, `run_file` (like the other spec-modelled operations) fails
with `NotConnected` having written nothing, but `remove_file` instead
fails with the missing-argument `TypeError` — the one-argument
`send_line` call dies at argument binding, before any connectivity check
can run — and so does not raise `NotConnected`. -/
theorem disconnected_remove_file_not_notConnected :
    run_file_call false "main.py" "x=1" =
        Except.error PyFailure.notConnected ∧
    call_send_character false 3 = Except.error PyFailure.notConnected ∧
    call_send_line false "x=1" (some crEnding) =
        Except.error PyFailure.notConnected ∧
    call_primitive false [] = Except.error PyFailure.notConnected ∧
    remove_file_call false "main.py" =
        Except.error PyFailure.missingArgument := by
  exact ⟨rfl, rfl, rfl, rfl, rfl⟩

/-! ## `disconnect` idempotence (spec-modelled state) -/

/-- The `Connection` flags relevant to connect/disconnect:
`connected` and `readerRunning`. -/
structure ConnFlags : Type where
  connected : Bool
  readerRunning : Bool
  deriving DecidableEq, Repr

/-- Modelled from the spec: the concrete `disconnect` (not under `src/`;
the base class raises `NotImplementedError`) stops the background reader
and releases the transport when connected, and is a no-op when already
disconnected. -/
def disconnect_flags (s : ConnFlags) : ConnFlags :=
  if s.connected then { connected := false, readerRunning := false } else s

/-- `is_connected` as the status query on the flags. -/
def is_connected_flags (s : ConnFlags) : Bool := s.connected

/-- C8: `disconnect()` is idempotent — from any state, applying it twice
equals applying it once and leaves `isConnected() == false`; and on an
already-disconnected `Connection` (connected flag false, any reader
flag) it is a no-op changing no state. -/
theorem disconnect_idempotent :
    (∀ s : ConnFlags,
      disconnect_flags (disconnect_flags s) = disconnect_flags s ∧
      is_connected_flags (disconnect_flags s) = false) ∧
    (∀ r : Bool,
      disconnect_flags { connected := false, readerRunning := r } =
        { connected := false, readerRunning := r }) := by
  constructor
  · intro s
    by_cases h : s.connected = true <;>
      simp [disconnect_flags, is_connected_flags, h]
  · intro r
    simp [disconnect_flags]

/-! ## File round-trip through naive string interpolation (spec-modelled) -/

/-- Scan the body of a double-quoted Python string literal: collect
characters until the closing `"`. A newline before the close, or a
missing close, is a syntax error (`none`); otherwise returns the literal
value and the input left after the closing quote. -/
def scanLiteralBody : List Char → Option (List Char × List Char)
  | [] => none
  | c :: rest =>
      if c = '"' then some ([], rest)
      else if c = '\n' then none
      else
        match scanLiteralBody rest with
        | none => none
        | some (v, left) => some (c :: v, left)

/-- The source text a naive interpolation produces for `s`: `s` wrapped
in double quotes with no escaping layer, as the spec documents for the
generated remote source. -/
def naiveLiteral (s : String) : List Char :=
  '"' :: (s.data ++ ['"'])

/-- The value the remote Python parser gives the naively interpolated
literal for `s`, provided the literal consumes the whole interpolated
region: `none` when the region is not one well-formed literal (the
generated snippet is syntactically invalid there). -/
def literalValue (s : String) : Option String :=
  match scanLiteralBody (naiveLiteral s).tail with
  | some (v, []) => some (String.mk v)
  | _ => none

/-- Modelled from the spec: `write_file` and `read_file` are
`NotImplementedError` stubs in the base class and their concrete
implementations are not under `src/`; per the spec they build remote
snippets by naive interpolation of the file name and payload into
double-quoted string literals. The round-trip
`writeFile(name, text)` then `readFile(name)` therefore yields the
payload exactly when both interpolated literals parse cleanly, and a
protocol failure (`none`) otherwise. -/
def write_read_roundtrip (name text : String) : Option String :=
  match literalValue name, literalValue text with
  | some _, some t => some t
  | _, _ => none

/-- C3 is false of the modelled code: with a payload holding an embedded
newline and a quote character, the naively interpolated write snippet is
not one well-formed literal, so the round-trip fails instead of
returning the payload. -/
theorem roundtrip_fails_on_quote :
    write_read_roundtrip "main.py" "a\"b\nc" ≠ some "a\"b\nc" := by
  decide

/-- `scanLiteralBody` on a quote-free, newline-free body followed by the
closing quote and leftovers consumes exactly the body. -/
theorem scanLiteralBody_clean (body left : List Char)
    (hq : '"' ∉ body) (hn : '\n' ∉ body) :
    scanLiteralBody (body ++ '"' :: left) = some (body, left) := by
  induction body with
  | nil => simp [scanLiteralBody]
  | cons c rest ih =>
    have hcq : c ≠ '"' := fun h => hq (h ▸ List.mem_cons_self ..)
    have hcn : c ≠ '\n' := fun h => hn (h ▸ List.mem_cons_self ..)
    have hrq : '"' ∉ rest := fun h => hq (List.mem_cons_of_mem _ h)
    have hrn : '\n' ∉ rest := fun h => hn (List.mem_cons_of_mem _ h)
    simp [scanLiteralBody, hcq, hcn, ih hrq hrn]

/-- C3 amended: the round-trip returns exactly `text` for every file
name and payload in which no double-quote and no newline character
occurs; a quote (or newline) in either breaks the naively interpolated
snippet, per the documented escaping gap. -/
theorem roundtrip_exact_without_quotes_or_newlines
    (name text : String)
    (hnq : '"' ∉ name.data) (hnn : '\n' ∉ name.data)
    (htq : '"' ∉ text.data) (htn : '\n' ∉ text.data) :
    write_read_roundtrip name text = some text := by
  have hname : literalValue name = some name := by
    simp [literalValue, naiveLiteral, scanLiteralBody_clean name.data [] hnq hnn]
  have htext : literalValue text = some text := by
    simp [literalValue, naiveLiteral, scanLiteralBody_clean text.data [] htq htn]
  simp [write_read_roundtrip, hname, htext]

/-- Closed witness for `roundtrip_exact_without_quotes_or_newlines`:
`writeFile("main.py", "x = 1")` then `readFile("main.py")` returns
`x = 1`. -/
theorem roundtrip_exact_without_quotes_or_newlines_witness :
    write_read_roundtrip "main.py" "x = 1" = some "x = 1" :=
  roundtrip_exact_without_quotes_or_newlines "main.py" "x = 1"
    (by decide) (by decide) (by decide) (by decide)

/-! ## Interleaving `run_file` with the background reader -/

/-- The instructions of one background-reader iteration that touch the
shared transport or the auto-reader lock. -/
inductive BInstr : Type
  | acq
  | readLn
  | rel
  deriving DecidableEq, Repr

/-- The lock/read/unlock instruction sequence of one reader iteration,
from the loop body: acquire; `read_line()` iff `_auto_read_enabled`;
release. -/
def bg_iter_instrs (auto_read : Bool) : List BInstr :=
  [BInstr.acq] ++ (if auto_read then [BInstr.readLn] else []) ++ [BInstr.rel]

/-- An atomic action in an interleaved execution: a foreground
`run_file` write, or a background acquire/read/release. -/
inductive Act : Type
  | fgWrite (e : TxEvent)
  | bgAcq
  | bgRead
  | bgRel
  deriving DecidableEq, Repr

/-- A configuration of the two tasks: whether the auto-reader lock is
held, the foreground writes still to perform (`run_file` acquires no
lock in the source, so its program is writes only), and the background
instructions still to perform. -/
structure Cfg : Type where
  lock : Bool
  fgRest : List TxEvent
  bgRest : List BInstr
  deriving DecidableEq, Repr

/-- Execute an interleaving: `sched` picks at each step which task moves
(`true` = foreground, `false` = background). Acquiring a held lock
blocks, so such schedules are rejected (`none`), as are schedules that
move a finished task or stop before both programs finish; otherwise the
trace of actions is returned. -/
def run : List Bool → Cfg → Option (List Act)
  | [], c => if c.fgRest = [] ∧ c.bgRest = [] then some [] else none
  | true :: s, c =>
      match c.fgRest with
      | [] => none
      | e :: fr =>
          (run s { c with fgRest := fr }).map (fun tr => Act.fgWrite e :: tr)
  | false :: s, c =>
      match c.bgRest with
      | [] => none
      | BInstr.acq :: br =>
          if c.lock then none
          else (run s { c with lock := true, bgRest := br }).map
            (fun tr => Act.bgAcq :: tr)
      | BInstr.readLn :: br =>
          (run s { c with bgRest := br }).map (fun tr => Act.bgRead :: tr)
      | BInstr.rel :: br =>
          (run s { c with lock := false, bgRest := br }).map
            (fun tr => Act.bgRel :: tr)

/-- Initial configuration: lock free, the foreground about to perform
the `run_file` writes, the background about to run one reader
iteration. -/
def initCfg (auto_read : Bool) (file_name globals_init : String) : Cfg :=
  { lock := false, fgRest := run_file_ev file_name globals_init,
    bgRest := bg_iter_instrs auto_read }

/-- Whether an action is a foreground write. -/
def isFgWrite : Act → Bool
  | Act.fgWrite _ => true
  | _ => false

/-- Whether an action is a background read. -/
def isBgRead : Act → Bool
  | Act.bgRead => true
  | _ => false

/-- Whether a trace contains a background read strictly between the
first and the last foreground write. -/
def between_read (tr : List Act) : Bool :=
  ((((tr.dropWhile fun a => !isFgWrite a).drop 1).reverse.dropWhile
      fun a => !isFgWrite a).drop 1).any isBgRead

/-- A schedule that lets the reader run right after `run_file`'s first
byte: foreground sends start-paste, then the background performs a whole
guarded read, then the foreground finishes. -/
def c1_bad_schedule : List Bool :=
  [true, false, false, false, true, true, true]

/-- The trace `c1_bad_schedule` produces from
`run_file("main.py", "")` interleaved with an auto-read iteration. -/
def c1_bad_trace : List Act :=
  [Act.fgWrite (TxEvent.char 5), Act.bgAcq, Act.bgRead, Act.bgRel,
   Act.fgWrite (TxEvent.line (run_file_open_line "main.py") crEnding),
   Act.fgWrite (TxEvent.line run_file_exec_line crEnding),
   Act.fgWrite (TxEvent.char 4)]

/-- C1 is false of the source: `run_file` holds no guard, so there is a
legal interleaving — `c1_bad_schedule` — in which the background reader
(auto-read enabled and the lock free) reads the transport strictly
between the start-paste byte and the end-paste byte of the session. -/
theorem background_read_interleaves_run_file :
    run c1_bad_schedule (initCfg true "main.py" "") = some c1_bad_trace ∧
    between_read c1_bad_trace = true := by
  exact ⟨rfl, rfl⟩

/-- A `bgRead` action can only appear in a trace if a `readLn`
instruction was pending in the background program. -/
theorem run_bgRead_mem {sched : List Bool} :
    ∀ {c : Cfg} {tr : List Act},
      run sched c = some tr → Act.bgRead ∈ tr → BInstr.readLn ∈ c.bgRest := by
  induction sched with
  | nil =>
    intro c tr h hm
    rw [run] at h
    split at h
    · cases h
      cases hm
    · cases h
  | cons b s ih =>
    intro c tr h hm
    obtain ⟨lk, fg, bg⟩ := c
    cases b with
    | true =>
      cases fg with
      | nil => simp [run] at h
      | cons e fr =>
        simp only [run] at h
        rcases Option.map_eq_some'.mp h with ⟨tr', htr', rfl⟩
        rcases List.mem_cons.mp hm with hEq | hm'
        · cases hEq
        · have hx := ih htr' hm'
          exact hx
    | false =>
      cases bg with
      | nil => simp [run] at h
      | cons i br =>
        cases i with
        | acq =>
          cases lk with
          | true => simp [run] at h
          | false =>
            simp only [run, Bool.false_eq_true, if_false] at h
            rcases Option.map_eq_some'.mp h with ⟨tr', htr', rfl⟩
            rcases List.mem_cons.mp hm with hEq | hm'
            · cases hEq
            · exact List.mem_cons_of_mem _ (ih htr' hm')
        | readLn =>
          exact List.mem_cons_self ..
        | rel =>
          simp only [run] at h
          rcases Option.map_eq_some'.mp h with ⟨tr', htr', rfl⟩
          rcases List.mem_cons.mp hm with hEq | hm'
          · cases hEq
          · exact List.mem_cons_of_mem _ (ih htr' hm')

/-- A trace without background reads has no read between the first and
last foreground write. -/
theorem between_read_eq_false_of_no_read {tr : List Act}
    (h : ∀ a ∈ tr, isBgRead a = false) : between_read tr = false := by
  unfold between_read
  rw [List.any_eq_false]
  intro a ha
  have h5 := (List.drop_sublist 1 _).subset ha
  have h4 := (List.dropWhile_sublist _).subset h5
  have h3 := List.mem_reverse.mp h4
  have h2 := (List.drop_sublist 1 _).subset h3
  have h1 := (List.dropWhile_sublist _).subset h2
  simp [h a h1]

/-- C1 amended: the guard protects only each single background read, and
`run_file` acquires no guard; mid-session exclusion holds only when
auto-read is disabled — with `_auto_read_enabled` false the background
iteration performs no read, so in every legal interleaving no background
read falls between the session's first and last byte (while with
auto-read enabled a schedule exists whose trace has a mid-session
read). -/
theorem no_background_read_mid_session_without_autoread
    (file_name globals_init : String) (sched : List Bool) (tr : List Act)
    (h : run sched (initCfg false file_name globals_init) = some tr) :
    between_read tr = false := by
  apply between_read_eq_false_of_no_read
  intro a ha
  cases a with
  | fgWrite e => rfl
  | bgAcq => rfl
  | bgRel => rfl
  | bgRead =>
    exfalso
    have := run_bgRead_mem h ha
    simp [initCfg, bg_iter_instrs] at this

/-- Closed witness for `no_background_read_mid_session_without_autoread`
at a concrete legal schedule: the foreground runs to completion, then
the background acquires and releases without reading. -/
theorem no_background_read_mid_session_without_autoread_witness :
    between_read
        [Act.fgWrite (TxEvent.char 5),
         Act.fgWrite (TxEvent.line (run_file_open_line "main.py") crEnding),
         Act.fgWrite (TxEvent.line run_file_exec_line crEnding),
         Act.fgWrite (TxEvent.char 4), Act.bgAcq, Act.bgRel] = false :=
  no_background_read_mid_session_without_autoread "main.py" ""
    [true, true, true, true, false, false] _ (by rfl)
